import Mathlib

/-!
Verification of the page-state synchronization logic of the
obsidian-pdf-view-sync plugin.

The repository contains three near-duplicate variants:
* `src/unnamed/part_000` — the most developed variant (`PdfViewStateSyncPlugin`):
  `savePdfStateDirect`, `loadPdfState`, `saveActivePdfState`, `triggerManualSave`,
  `getAssociatedNotePath`;
* `src/main.ts` and `src/unnamed/part_001` — the simpler `PDFViewSyncPlugin`
  variant: `savePDFState`, `handleFileOpen`, `getAssociatedNotePath`.

We shallowly embed the front-matter data model as an inductive YAML-like value
type, notes as a parsed front-matter mapping plus a body, and the save/load
decision logic as pure functions of the plugin's explicit state.  JavaScript
dynamic typing is mirrored explicitly (`typeof x === 'object'` is true for
objects and `null`; JS truthiness is modelled by `jsTruthy`).
-/

/-- A YAML-like front-matter value, as produced by the host's YAML parser /
metadata cache.  `num` covers the JS `number` values the plugin handles
(page indices are integers). -/
inductive Fval where
  | num (n : Int)
  | str (s : String)
  | bool (b : Bool)
  | null
  | obj (fields : List (String × Fval))

/-- A parsed front-matter mapping, ordered as in the file. -/
abbrev Frontmatter := List (String × Fval)

/-- Property access `fm[k]` on a parsed mapping: first binding wins,
`none` models JS `undefined` (key absent). -/
def fmLookup (fm : Frontmatter) (k : String) : Option Fval :=
  match fm with
  | [] => none
  | (k', v) :: rest => if k' = k then some v else fmLookup rest k

/-- Assignment `fm[k] = v`: overwrites the first binding of `k`, otherwise
appends the key at the end (as the host's YAML round-trip does). -/
def fmSet (fm : Frontmatter) (k : String) (v : Fval) : Frontmatter :=
  match fm with
  | [] => [(k, v)]
  | (k', v') :: rest => if k' = k then (k, v) :: rest else (k', v') :: fmSet rest k v

/-- JS truthiness of a front-matter value (`if (frontmatter[key])` in
`main.ts` `handleFileOpen`): `0`, `""`, `false` and `null` are falsy. -/
def jsTruthy (v : Fval) : Bool :=
  match v with
  | Fval.num n => n ≠ 0
  | Fval.str s => s ≠ ""
  | Fval.bool b => b
  | Fval.null => false
  | Fval.obj _ => true

/-- `typeof v === 'object'` in JS: true for objects and for `null`. -/
def jsTypeofObject (v : Fval) : Bool :=
  match v with
  | Fval.obj _ => true
  | Fval.null => true
  | _ => false

/-- part_000 `loadPdfState`, lines 343-350: the page number extracted from the
stored value `rawState = frontmatter[fmKey]`.  The source checks, in order:
`typeof rawState === 'object' && rawState !== null && typeof rawState.page === 'number'`
(take `rawState.page`), `else if (typeof rawState === 'number')` (take
`rawState` itself, the legacy bare-number form), else `pageToLoad` stays
`undefined` (`none`) and no load action is taken; no branch throws. -/
def loadPdfState_page (fmKey : String) (fm : Frontmatter) : Option Int :=
  match fmLookup fm fmKey with
  | some (Fval.obj fields) =>
    match fmLookup fields "page" with
    | some (Fval.num p) => some p
    | _ => none
  | some (Fval.num p) => some p
  | _ => none

/-- The read-acceptance rule as the spec words it (section 4.3 `readPage`):
accept the value at `key` as either a bare integer or an object exposing a
`page` integer field; anything else yields null.  Written from the spec, to be
compared with the source-derived `loadPdfState_page`. -/
def spec_readPage (v : Option Fval) : Option Int :=
  match v with
  | some (Fval.num n) => some n
  | some (Fval.obj fields) =>
    match fmLookup fields "page" with
    | some (Fval.num n) => some n
    | _ => none
  | _ => none

/-- main.ts `handleFileOpen`, lines 152-161: the page value passed to
`setState`, if any.  The guard `if (frontmatter && frontmatter[key])` is a JS
truthiness test, so falsy stored values (`0`, `""`, `false`, `null`) are
skipped entirely.  Then
`typeof pdfState === 'number' ? pdfState : (typeof pdfState === 'object' && pdfState.page !== undefined ? pdfState.page : null)`;
`setState` runs only when the result is not `null`.  Note the object branch
does not require `page` to be a number, so any non-`null` `page` value is
forwarded. -/
def handleFileOpen_page (fmKey : String) (fm : Frontmatter) : Option Fval :=
  match fmLookup fm fmKey with
  | none => none
  | some pdfState =>
    if jsTruthy pdfState then
      match pdfState with
      | Fval.num p => some (Fval.num p)
      | Fval.obj fields =>
        match fmLookup fields "page" with
        | some Fval.null => none
        | some pv => some pv
        | none => none
      | _ => none
    else none

/-- part_000 `savePdfStateDirect`, lines 422-442: the front-matter mutation
performed inside `fileManager.processFrontMatter` (the host API hands the
callback the parsed mapping and writes it back, leaving the note body
untouched).  Returns the resulting mapping together with the source's
`fmModified` flag.  The modification condition, line 438, is
`existingPage !== pageNumber || !(fmKey in fm) || typeof existingStateRaw !== 'object'`;
note that `typeof null === 'object'` in JS, so a stored `null` passes the
third test but fails the first (its `existingPage` is `undefined`). -/
def savePdfStateDirect_fm (fmKey : String) (pageNumber : Int) (fm : Frontmatter) :
    Frontmatter × Bool :=
  let existingStateRaw := fmLookup fm fmKey
  let existingPage : Option Int :=
    match existingStateRaw with
    | some (Fval.obj fields) =>
      match fmLookup fields "page" with
      | some (Fval.num p) => some p
      | _ => none
    | some (Fval.num p) => some p
    | _ => none
  let keyPresent : Bool := existingStateRaw.isSome
  let rawIsObjectType : Bool :=
    match existingStateRaw with
    | some v => jsTypeofObject v
    | none => false
  if existingPage ≠ some pageNumber ∨ keyPresent = false ∨ rawIsObjectType = false then
    (fmSet fm fmKey (Fval.obj [("page", Fval.num pageNumber)]), true)
  else
    (fm, false)

/-- The state of a note's front-matter block as seen by the `main.ts` /
`part_001` `savePDFState` after reading the file: the front-matter regex
(delimiters omitted) `^---\n([\s\S]*?)\n---` either matched and `parseYaml`
succeeded (`parsed`),
or matched but `parseYaml` threw (`unparsable`, keeping the raw block text),
or did not match (`absent`). -/
inductive FmBlock where
  | parsed (fm : Frontmatter)
  | unparsable (text : String)
  | absent

/-- A note at the level the claims speak about: its front-matter block and the
document body after the closing `---` delimiter. -/
structure NoteContent where
  block : FmBlock
  body : String

/-- main.ts `savePDFState`, lines 208-239 (identically `part_001` lines
266-307), on an existing associated note: read-modify-write of the content.
The returned `Bool` records whether `vault.modify` is called — it is called on
every path that reaches the write (there is no skip-if-equal check in this
variant).  On a parsed block the configured key is set to the bare page
number; on an unparsable block the key is appended textually; with no block a
fresh one is prepended and the old content follows a blank line. -/
def savePDFState (fmKey : String) (page : Int) (c : NoteContent) : NoteContent × Bool :=
  match c.block with
  | FmBlock.parsed fm =>
    (⟨FmBlock.parsed (fmSet fm fmKey (Fval.num page)), c.body⟩, true)
  | FmBlock.unparsable t =>
    (⟨FmBlock.unparsable (t ++ "\n" ++ fmKey ++ ": " ++ toString page), c.body⟩, true)
  | FmBlock.absent =>
    (⟨FmBlock.parsed [(fmKey, Fval.num page)], "\n\n" ++ c.body⟩, true)

/-- part_000 line 67: `SAVE_INTERVAL_MS = 7000` (periodic save check every
7 seconds). -/
def SAVE_INTERVAL_MS : Nat := 7000

/-- part_000 `activePdfInfo` entry (line 65): the tracked leaf (modelled by an
identifier), the PDF path, and the last saved page. -/
structure PdfInfo where
  leaf : Nat
  pdfPath : String
  lastSavedPage : Option Int

/-- The mutable plugin fields consulted by part_000's save logic:
`enableStateSaving` (settings), `currentlyLoadingState` (the per-path loading
markers), `activePdfInfo`, and `lastSavedStateTime` (milliseconds). -/
structure PluginState where
  enableStateSaving : Bool
  currentlyLoadingState : List String
  activePdfInfo : Option PdfInfo
  lastSavedStateTime : Nat

/-- part_000 `saveActivePdfState`, lines 251-254: the `lastKnownSavedPage`
used for the changed-page check — the tracked `lastSavedPage` when the
tracked path matches, else `null`. -/
def lastKnownSavedPage (st : PluginState) (pdfPath : String) : Option Int :=
  match st.activePdfInfo with
  | some info => if info.pdfPath = pdfPath then info.lastSavedPage else none
  | none => none

/-- part_000 `saveActivePdfState`, lines 236-270: whether the call reaches
`savePdfStateDirect` (i.e. performs a write), as a function of the plugin
state, the current clock `now`, the view's path and page, and the `forceSave`
flag.  Faithfully in order: the `enableStateSaving` guard, the
`currentlyLoadingState.has(pdfPath)` suppression, the valid-page check
(`page !== undefined && typeof page === 'number' && page >= 0`), the
changed-or-forced check, and the throttle
`if (!forceSave && now - lastSavedStateTime < SAVE_INTERVAL_MS / 2) return`.
Times are naturals with JS subtraction truncated at zero (a negative JS
difference is below the threshold exactly as a truncated zero is). -/
def saveActivePdfState_writes (st : PluginState) (now : Nat) (pdfPath : String)
    (currentPage : Option Int) (forceSave : Bool) : Bool :=
  if st.enableStateSaving = false then false
  else if pdfPath ∈ st.currentlyLoadingState then false
  else
    match currentPage with
    | some p =>
      if 0 ≤ p then
        if forceSave = true ∨ some p ≠ lastKnownSavedPage st pdfPath then
          if forceSave = false ∧ now - st.lastSavedStateTime < SAVE_INTERVAL_MS / 2 then
            false
          else
            true
        else false
      else false
    | none => false

/-- part_000 `triggerManualSave`, lines 287-312: whether the manual save
command reaches `savePdfStateDirect`.  Only `enableStateSaving` and the
valid-page check guard it — in particular `currentlyLoadingState` is NOT
consulted, unlike in `saveActivePdfState`. -/
def triggerManualSave_writes (st : PluginState) (pdfPath : String)
    (currentPage : Option Int) : Bool :=
  if st.enableStateSaving = false then false
  else
    match currentPage with
    | some p => if 0 ≤ p then true else false
    | none => false

/-- part_000 onload `active-leaf-change` handler, lines 93-105: the save it
issues for the previously tracked PDF view.  When a view is tracked and the
newly active leaf is a different one (or `null`), the handler calls
`saveActivePdfState(oldView, true)` — force flag set.  Returns the
`(pdfPath, forceSave)` of that call, or `none` when no save is issued.
(`pdfPath` is also used as the result's first component when the `!leaf`
branch at lines 137-145 fires; both branches pass `true`.) -/
def activeLeafChange_forcedSave (activePdfInfo : Option PdfInfo) (newLeaf : Option Nat) :
    Option (String × Bool) :=
  match activePdfInfo with
  | some info => if newLeaf ≠ some info.leaf then some (info.pdfPath, true) else none
  | none => none

/-- main.ts `checkForClosedPDFs`, lines 72-101: the paths whose views get a
`savePDFState` call on a layout change — every tracked open PDF that is no
longer among the currently open ones. -/
def checkForClosedPDFs_saves (openPDFs currentPDFs : List String) : List String :=
  openPDFs.filter (fun p => !(currentPDFs.contains p))

/-- Split a character list on a separator character; like JS
`string.split(sep)`, an empty input yields one empty group. -/
def splitOnCharL (sep : Char) : List Char → List (List Char)
  | [] => [[]]
  | c :: rest =>
    match splitOnCharL sep rest with
    | [] => [[]]
    | g :: gs => if c = sep then [] :: g :: gs else (c :: g) :: gs

/-- Join character-list groups with a separator character (JS
`parts.join(sep)`). -/
def joinWithChar (sep : Char) : List (List Char) → List Char
  | [] => []
  | [g] => g
  | g :: gs => g ++ sep :: joinWithChar sep gs

/-- Replace, left to right and without rescanning the replacement, every
occurrence of `pat` in the input — JS `string.replace(/pat/g, rep)` for a
literal pattern.  Fuel-driven so the recursion is structural; `substAll`
supplies enough fuel. -/
def substFuel (pat rep : List Char) : Nat → List Char → List Char
  | _, [] => []
  | 0, s => s
  | Nat.succ fuel, c :: rest =>
    if pat.isPrefixOf (c :: rest) && !pat.isEmpty then
      rep ++ substFuel pat rep fuel (List.drop (pat.length - 1) rest)
    else
      c :: substFuel pat rep fuel rest

/-- All-occurrence replacement of a literal pattern. -/
def substAll (s pat rep : List Char) : List Char :=
  substFuel pat rep s.length s

/-- Collapse every run of consecutive `/` to a single `/` — the part_000
normalization `filledPath.replace(/\/+/g, '/')` at line 480. -/
def collapseSlashes : List Char → List Char
  | [] => []
  | c :: rest =>
    let r := collapseSlashes rest
    if c = '/' ∧ r.head? = some '/' then r else c :: r

/-- Character-wise lowercasing, JS `string.toLowerCase()` for the ASCII paths
involved. -/
def toLowerL (s : List Char) : List Char := s.map Char.toLower

/-- The file name of a path: the component after the last `/`
(`TFile.name`). -/
def fileNameOf (p : String) : List Char :=
  (splitOnCharL '/' p.data).getLastD []

/-- The name without its last dot-extension (`TFile.basename`): for
`Smith 2024.pdf` this is `Smith 2024`; a dotless name is unchanged. -/
def basenameOf (n : List Char) : List Char :=
  let parts := splitOnCharL '.' n
  if parts.length ≤ 1 then n else joinWithChar '.' parts.dropLast

/-- The path of the containing folder (`TFile.parent.path`): the root folder
has path `/`, otherwise the components before the file name joined by `/`. -/
def parentPathOf (p : String) : List Char :=
  let comps := splitOnCharL '/' p.data
  if comps.length ≤ 1 then ['/'] else joinWithChar '/' comps.dropLast

/-- part_000 helper `getParentFolderName`, lines 36-40: the second-to-last
`/`-separated component, or empty when there are fewer than two components.
(`TFile.parent.name` in main.ts agrees: the root folder's name is empty.) -/
def getParentFolderName (p : String) : List Char :=
  let parts := splitOnCharL '/' p.data
  if parts.length < 2 then [] else parts.getD (parts.length - 2) []

/-- main.ts line 268: `pdfFilename.replace(/\.pdf$/i, '')` — strip one
trailing `.pdf` extension case-insensitively. -/
def stripPdfExt (n : List Char) : List Char :=
  if List.isSuffixOf ".pdf".data (toLowerL n) then n.take (n.length - 4) else n

/-- The four placeholder substitutions shared by all resolver variants
(template then `pdf_filename`, `pdf_basename`, `pdf_folder_path`,
`pdf_parent_folder_name`, each replaced globally). -/
def fillTemplate (template : String)
    (pdfFilename pdfBasename pdfFolderPath pdfParentFolderName : List Char) : List Char :=
  substAll (substAll (substAll (substAll template.data
    "\x7b\x7bpdf_filename\x7d\x7d".data pdfFilename)
    "\x7b\x7bpdf_basename\x7d\x7d".data pdfBasename)
    "\x7b\x7bpdf_folder_path\x7d\x7d".data pdfFolderPath)
    "\x7b\x7bpdf_parent_folder_name\x7d\x7d".data pdfParentFolderName

/-- part_000 `getAssociatedNotePath` lines 479-489, the normalization and
validation of the substituted template: collapse repeated separators, strip a
single leading `/` (only when more than the slash remains, line 481), and
return `null` for a degenerate result — empty, not ending in `.md`
case-insensitively (`!filledPath.toLowerCase().endsWith('.md')`), or exactly
`.md`. -/
def normalizeCandidate (filled : List Char) : Option (List Char) :=
  let collapsed := collapseSlashes filled
  let stripped :=
    if collapsed.head? = some '/' ∧ 1 < collapsed.length then collapsed.tail
    else collapsed
  if stripped = [] ∨ ¬ (List.isSuffixOf ".md".data (toLowerL stripped))
      ∨ stripped = ".md".data then
    none
  else
    some stripped

/-- part_000 `getAssociatedNotePath`, lines 456-495.  The vault lookup of the
PDF `TFile` is modelled by deriving the file attributes from the path
(lines 468-471: `name`, `basename`, `parent.path` — with the root folder's
`/` mapped to the empty string — and `getParentFolderName`).  Then the
placeholder substitution (473-477), separator collapsing (480), the
single-leading-slash strip guarded by `length > 1` (481-483), the degenerate
checks (484-488: empty, not `.md`-suffixed case-insensitively, or exactly
`.md` give `null`), and the final host `normalizePath` — the identity on the
already collapsed, relative result. -/
def getAssociatedNotePath (associatedNotePathTemplate pdfFilePath : String) :
    Option String :=
  if pdfFilePath = "" ∨ associatedNotePathTemplate = "" then none
  else
    let pdfFilename := fileNameOf pdfFilePath
    let pdfBasename := basenameOf pdfFilename
    let parentPath := parentPathOf pdfFilePath
    let pdfFolderPath := if parentPath = ['/'] then [] else parentPath
    let pdfParentFolderName := getParentFolderName pdfFilePath
    let filled := fillTemplate associatedNotePathTemplate
      pdfFilename pdfBasename pdfFolderPath pdfParentFolderName
    match normalizeCandidate filled with
    | none => none
    | some stripped => some (String.mk stripped)

/-- main.ts `getAssociatedNotePath`, lines 259-290: same substitution (with
`pdfBasename` from the `\.pdf$` strip and `parent.path` kept verbatim — `/`
for a root-level file), but instead of normalizing, line 281-283 PREPENDS a
`/` when the result does not already start with one, and there is no
degenerate-result check. -/
def main_getAssociatedNotePath (associatedNoteTemplate pdfFilePath : String) :
    Option String :=
  let pdfFilename := fileNameOf pdfFilePath
  let pdfBasename := stripPdfExt pdfFilename
  let pdfFolderPath := parentPathOf pdfFilePath
  let pdfParentFolderName := getParentFolderName pdfFilePath
  let filled := fillTemplate associatedNoteTemplate
    pdfFilename pdfBasename pdfFolderPath pdfParentFolderName
  some (String.mk (if filled.head? = some '/' then filled else '/' :: filled))

/-- part_001 `getAssociatedNotePath`, lines 327-360: as main.ts but lines
347-350 REMOVE a leading `/` when present, with no other normalization and no
degenerate-result check. -/
def part001_getAssociatedNotePath (associatedNoteTemplate pdfFilePath : String) :
    Option String :=
  let pdfFilename := fileNameOf pdfFilePath
  let pdfBasename := stripPdfExt pdfFilename
  let pdfFolderPath := parentPathOf pdfFilePath
  let pdfParentFolderName := getParentFolderName pdfFilePath
  let filled := fillTemplate associatedNoteTemplate
    pdfFilename pdfBasename pdfFolderPath pdfParentFolderName
  some (String.mk (if filled.head? = some '/' then filled.tail else filled))


/-! ### Helper lemmas -/

/-- `fmSet` behaves as pointwise update under `fmLookup`. -/
theorem fmLookup_fmSet (fm : Frontmatter) (k : String) (v : Fval) (k' : String) :
    fmLookup (fmSet fm k v) k' = if k' = k then some v else fmLookup fm k' := by
  induction fm with
  | nil =>
    by_cases h : k = k'
    · simp [fmSet, fmLookup, h]
    · simp [fmSet, fmLookup, h, show ¬ (k' = k) from fun hh => h hh.symm]
  | cons kv rest ih =>
    obtain ⟨a, b⟩ := kv
    simp only [fmSet]
    by_cases hak : a = k
    · rw [if_pos hak]
      by_cases h : k' = k
      · simp [fmLookup, h]
      · simp [fmLookup, h, hak, show ¬ (k = k') from fun hh => h hh.symm]
    · rw [if_neg hak]
      by_cases h : a = k'
      · have hk'k : ¬ (k' = k) := fun hh => hak (h.trans hh)
        simp [fmLookup, h, hk'k]
      · simp [fmLookup, h, ih]

/-- Whether a character list contains two consecutive slashes. -/
def hasDoubleSlash : List Char → Bool
  | [] => false
  | [_] => false
  | a :: b :: rest => (a = '/' && b = '/') || hasDoubleSlash (b :: rest)

theorem collapseSlashes_noDouble (l : List Char) :
    hasDoubleSlash (collapseSlashes l) = false := by
  induction l with
  | nil => rfl
  | cons c rest ih =>
    simp only [collapseSlashes]
    split
    · exact ih
    · next hcond =>
      cases hr : collapseSlashes rest with
      | nil => rfl
      | cons b tl =>
        rw [hr] at ih hcond
        simp only [hasDoubleSlash, Bool.or_eq_false_iff]
        constructor
        · by_cases hc : c = '/'
          · have hb : ¬ (b = '/') := by
              intro hb
              exact hcond ⟨hc, by simp [hb]⟩
            simp [hb]
          · simp [hc]
        · exact ih

theorem hasDoubleSlash_tail (l : List Char) (h : hasDoubleSlash l = false) :
    hasDoubleSlash l.tail = false := by
  match l with
  | [] => rfl
  | [_] => rfl
  | a :: b :: rest =>
    simp only [hasDoubleSlash, Bool.or_eq_false_iff] at h
    exact h.2

theorem noDouble_head_tail (l : List Char) (h : hasDoubleSlash l = false)
    (hh : l.head? = some '/') : l.tail.head? ≠ some '/' := by
  match l with
  | [] => simp at hh
  | [a] => simp
  | a :: b :: rest =>
    simp only [hasDoubleSlash, Bool.or_eq_false_iff] at h
    simp only [List.head?] at hh ⊢
    intro hb
    have ha : a = '/' := by simpa using hh
    have hb' : b = '/' := by simpa using hb
    simp [ha, hb'] at h

theorem head_ne_slash_of (c : List Char)
    (hB : ¬ (c.head? = some '/' ∧ 1 < c.length))
    (hsuf : List.isSuffixOf ".md".data (toLowerL c) = true) :
    c.head? ≠ some '/' := by
  intro hhead
  have hlen : ¬ 1 < c.length := fun hl => hB ⟨hhead, hl⟩
  cases c with
  | nil => simp at hhead
  | cons x xs =>
    have hx : x = '/' := by simpa using hhead
    cases xs with
    | nil =>
      subst hx
      exact absurd hsuf (by decide)
    | cons y ys =>
      simp only [List.length_cons] at hlen
      omega

theorem normalizeCandidate_spec (filled l : List Char)
    (h : normalizeCandidate filled = some l) :
    hasDoubleSlash l = false ∧ l.head? ≠ some '/' ∧
    List.isSuffixOf ".md".data (toLowerL l) = true ∧ l ≠ [] := by
  have hcol : hasDoubleSlash (collapseSlashes filled) = false :=
    collapseSlashes_noDouble filled
  simp only [normalizeCandidate] at h
  by_cases hB : (collapseSlashes filled).head? = some '/'
      ∧ 1 < (collapseSlashes filled).length
  · rw [if_pos hB] at h
    split at h
    · exact Option.noConfusion h
    · next hA =>
      push_neg at hA
      obtain ⟨hne, hsuf, hmd⟩ := hA
      obtain rfl := Option.some.inj h
      exact ⟨hasDoubleSlash_tail _ hcol, noDouble_head_tail _ hcol hB.1, hsuf, hne⟩
  · rw [if_neg hB] at h
    split at h
    · exact Option.noConfusion h
    · next hA =>
      push_neg at hA
      obtain ⟨hne, hsuf, hmd⟩ := hA
      obtain rfl := Option.some.inj h
      exact ⟨hcol, head_ne_slash_of _ hB hsuf, hsuf, hne⟩

/-! ### Claim theorems -/

/-- C3 counterexample: the claim's read path includes main.ts
`handleFileOpen` (lines 152-161), and there the claimed rule fails: its
object branch only tests `pdfState.page !== undefined`, so an object whose
`page` is NOT an integer — `page: "abc"` — is forwarded to `setState`
instead of yielding null (taking no load action) as the claim demands for
"any other shape". -/
theorem C3_counterexample :
    handleFileOpen_page "pdf-view-state"
      [("pdf-view-state", Fval.obj [("page", Fval.str "abc")])]
      = some (Fval.str "abc")
    ∧ some (Fval.str "abc") ≠ (none : Option Fval) :=
  ⟨rfl, by simp⟩

/-- C3 (corrected): the part_000 adapter read (`loadPdfState`) follows the
spec's acceptance rule exactly — bare integer returned as itself (the legacy
form, so `pdf-view-state: 7` reads as page 7), object with an integer `page`
field yields that field, any other shape yields null, and the extraction is a
total function so no error is raised.  The main.ts `handleFileOpen`
extraction agrees with the rule on the positive cases only — a nonzero bare
integer and an object with an integer `page` — while it deviates on falsy
bare values (see C10) and on objects with a non-integer `page` (see the
counterexample). -/
theorem C3_read_shapes :
    (∀ (fmKey : String) (fm : Frontmatter),
      loadPdfState_page fmKey fm = spec_readPage (fmLookup fm fmKey))
    ∧ (∀ (fmKey : String) (fm : Frontmatter) (n : Int),
      fmLookup fm fmKey = some (Fval.num n) → n ≠ 0 →
      handleFileOpen_page fmKey fm = some (Fval.num n))
    ∧ (∀ (fmKey : String) (fm : Frontmatter) (fields : List (String × Fval))
        (n : Int),
      fmLookup fm fmKey = some (Fval.obj fields) →
      fmLookup fields "page" = some (Fval.num n) →
      handleFileOpen_page fmKey fm = some (Fval.num n)) := by
  refine ⟨?_, ?_, ?_⟩
  · intro fmKey fm
    unfold loadPdfState_page spec_readPage
    cases hv : fmLookup fm fmKey with
    | none => rfl
    | some v =>
      cases v with
      | num n => rfl
      | str s => rfl
      | bool b => rfl
      | null => rfl
      | obj fields =>
        cases hpg : fmLookup fields "page" with
        | none => rfl
        | some pv => cases pv <;> rfl
  · intro fmKey fm n h1 hn
    have htr : jsTruthy (Fval.num n) = true := by simp [jsTruthy, hn]
    unfold handleFileOpen_page
    rw [h1]
    simp [htr]
  · intro fmKey fm fields n h1 h2
    unfold handleFileOpen_page
    rw [h1]
    simp [jsTruthy, h2]

/-- Witness for C3 at the spec's example: `pdf-view-state: 7` (legacy bare
number) and the object form with page 7 are both read as page 7 by the
main.ts extraction. -/
theorem C3_read_shapes_witness :
    handleFileOpen_page "pdf-view-state" [("pdf-view-state", Fval.num 7)]
      = some (Fval.num 7)
    ∧ handleFileOpen_page "pdf-view-state"
      [("pdf-view-state", Fval.obj [("page", Fval.num 7)])]
      = some (Fval.num 7) :=
  ⟨C3_read_shapes.2.1 "pdf-view-state" [("pdf-view-state", Fval.num 7)] 7
      rfl (by decide),
   C3_read_shapes.2.2 "pdf-view-state"
      [("pdf-view-state", Fval.obj [("page", Fval.num 7)])]
      [("page", Fval.num 7)] 7 rfl rfl⟩

/-- C10 (confirmed): in the main.ts variant, `handleFileOpen`'s
`if (frontmatter && frontmatter[key])` guard is a JS truthiness test, so any
falsy stored value — in particular the legacy bare number 0 — causes no
navigation: no page value is ever passed to `setState`. -/
theorem C10_truthiness_skip (fmKey : String) (fm : Frontmatter) (v : Fval)
    (h1 : fmLookup fm fmKey = some v) (h2 : jsTruthy v = false) :
    handleFileOpen_page fmKey fm = none := by
  unfold handleFileOpen_page
  rw [h1]
  simp [h2]

/-- Witness for C10 at the concrete input the claim describes: front matter
storing the legacy bare number 0 under the default key. -/
theorem C10_truthiness_skip_witness :
    handleFileOpen_page "pdf-view-state" [("pdf-view-state", Fval.num 0)] = none :=
  C10_truthiness_skip "pdf-view-state" _ (Fval.num 0) rfl rfl

/-- C5 (code_bug): on documentPath `Research/Papers/Smith 2024.pdf` with
template `@(pdf_basename).md` (braces written per the four placeholders), all
three resolver variants produce a vault-root path `@Smith 2024.md` (main.ts
even prefixes a slash), NOT the folder-qualified `Research/Papers/@Smith
2024.md` that the repository's README and the spec promise for exactly this
input. -/
theorem C5_resolver_example :
    getAssociatedNotePath "@\x7b\x7bpdf_basename\x7d\x7d.md"
      "Research/Papers/Smith 2024.pdf" = some "@Smith 2024.md"
    ∧ main_getAssociatedNotePath "@\x7b\x7bpdf_basename\x7d\x7d.md"
      "Research/Papers/Smith 2024.pdf" = some "/@Smith 2024.md"
    ∧ part001_getAssociatedNotePath "@\x7b\x7bpdf_basename\x7d\x7d.md"
      "Research/Papers/Smith 2024.pdf" = some "@Smith 2024.md"
    ∧ ("@Smith 2024.md" : String) ≠ "Research/Papers/@Smith 2024.md"
    ∧ ("/@Smith 2024.md" : String) ≠ "Research/Papers/@Smith 2024.md" :=
  ⟨by decide, by decide, by decide, by decide, by decide⟩

/-- C2 (confirmed): a write through either adapter changes at most the
configured front-matter key.  For part_000's `savePdfStateDirect` the
`processFrontMatter` mutation leaves every other key's value unchanged (and
the host rewrites only the front-matter block, so the body is untouched); for
main.ts's `savePDFState` on a parseable block, every other key keeps its
value — the saved mapping is exactly the old one with the key set to the bare
page — and the body after the closing delimiter is unchanged. -/
theorem C2_frame (fmKey : String) (page : Int) (fm : Frontmatter) (body : String)
    (k' : String) (hk : k' ≠ fmKey) :
    fmLookup (savePdfStateDirect_fm fmKey page fm).1 k' = fmLookup fm k'
    ∧ (savePDFState fmKey page ⟨FmBlock.parsed fm, body⟩).1.block
        = FmBlock.parsed (fmSet fm fmKey (Fval.num page))
    ∧ fmLookup (fmSet fm fmKey (Fval.num page)) k' = fmLookup fm k'
    ∧ (savePDFState fmKey page ⟨FmBlock.parsed fm, body⟩).1.body = body := by
  refine ⟨?_, rfl, by simp [fmLookup_fmSet, hk], rfl⟩
  simp only [savePdfStateDirect_fm]
  split
  · simp [fmLookup_fmSet, hk]
  · rfl

/-- Witness for C2 at the spec's example: saving page 15 to a note with front
matter storing `title` and `tags` leaves `title` (and by symmetry `tags`)
with its old value and the body untouched. -/
theorem C2_frame_witness :
    fmLookup (savePdfStateDirect_fm "pdf-view-state" 15
        [("title", Fval.str "X"), ("tags", Fval.obj [])]).1 "title"
      = fmLookup [("title", Fval.str "X"), ("tags", Fval.obj [])] "title"
    ∧ (savePDFState "pdf-view-state" 15
        ⟨FmBlock.parsed [("title", Fval.str "X"), ("tags", Fval.obj [])],
          "Your existing note content..."⟩).1.block
        = FmBlock.parsed (fmSet [("title", Fval.str "X"), ("tags", Fval.obj [])]
            "pdf-view-state" (Fval.num 15))
    ∧ fmLookup (fmSet [("title", Fval.str "X"), ("tags", Fval.obj [])]
        "pdf-view-state" (Fval.num 15)) "title"
      = fmLookup [("title", Fval.str "X"), ("tags", Fval.obj [])] "title"
    ∧ (savePDFState "pdf-view-state" 15
        ⟨FmBlock.parsed [("title", Fval.str "X"), ("tags", Fval.obj [])],
          "Your existing note content..."⟩).1.body
        = "Your existing note content..." :=
  C2_frame "pdf-view-state" 15 [("title", Fval.str "X"), ("tags", Fval.obj [])]
    "Your existing note content..." "title" (by decide)

/-- C4 counterexample: the claim quantifies over both write paths
(`savePdfStateDirect` / `savePDFState`), but main.ts's `savePDFState` has no
skip-if-equal check: on a note whose front matter already stores the key in
object form with the very same page 15, it still calls `vault.modify`, and a
second write of the same page performs a second modification — two disk
writes, not one. -/
theorem C4_counterexample :
    (savePDFState "pdf-view-state" 15
      ⟨FmBlock.parsed [("pdf-view-state", Fval.obj [("page", Fval.num 15)])],
        "body"⟩).2 = true
    ∧ (savePDFState "pdf-view-state" 15
        (savePDFState "pdf-view-state" 15
          ⟨FmBlock.parsed [("pdf-view-state", Fval.obj [("page", Fval.num 15)])],
            "body"⟩).1).2 = true :=
  ⟨rfl, rfl⟩

/-- C4 (corrected): the claimed write-skipping holds for part_000's
`savePdfStateDirect` only.  There, if the note already stores the key in
object form with the same page, the write is skipped (`fmModified` stays
false); and immediately repeating any write of the same page never modifies a
second time.  main.ts's `savePDFState` writes unconditionally (see the
counterexample). -/
theorem C4_idempotent_write :
    (∀ (fmKey : String) (page : Int) (fm : Frontmatter)
        (fields : List (String × Fval)),
      fmLookup fm fmKey = some (Fval.obj fields) →
      fmLookup fields "page" = some (Fval.num page) →
      (savePdfStateDirect_fm fmKey page fm).2 = false)
    ∧ (∀ (fmKey : String) (page : Int) (fm : Frontmatter),
      (savePdfStateDirect_fm fmKey page
        (savePdfStateDirect_fm fmKey page fm).1).2 = false) := by
  constructor
  · intro fmKey page fm fields h1 h2
    simp [savePdfStateDirect_fm, h1, h2, jsTypeofObject]
  · intro fmKey page fm
    rcases hsplit : savePdfStateDirect_fm fmKey page fm with ⟨fm', modified⟩
    show (savePdfStateDirect_fm fmKey page fm').2 = false
    simp only [savePdfStateDirect_fm] at hsplit
    split at hsplit
    · have h1 : fmSet fm fmKey (Fval.obj [("page", Fval.num page)]) = fm' :=
        congrArg Prod.fst hsplit
      rw [← h1]
      simp [savePdfStateDirect_fm, fmLookup_fmSet, fmLookup, jsTypeofObject]
    · next hC =>
      have h1 : fm = fm' := congrArg Prod.fst hsplit
      rw [← h1]
      simp only [savePdfStateDirect_fm]
      rw [if_neg hC]

/-- Witness for C4 at a concrete input: a note already storing
`pdf-view-state: (page: 15)` in object form is not modified by a write of
page 15 through `savePdfStateDirect`. -/
theorem C4_idempotent_write_witness :
    (savePdfStateDirect_fm "pdf-view-state" 15
      [("pdf-view-state", Fval.obj [("page", Fval.num 15)])]).2 = false :=
  C4_idempotent_write.1 "pdf-view-state" 15 _ _ rfl rfl

/-- C1 counterexample: the claim quantifies over every page p ≥ 0 and names
the `savePDFState` / `handleFileOpen` pair as one write/read path, but at
p = 0 that pair does not round-trip: the write stores the bare number 0,
and `handleFileOpen`'s truthiness guard then takes no load action at all
(returns no page rather than page 0). -/
theorem C1_roundtrip_counterexample :
    (savePDFState "pdf-view-state" 0 ⟨FmBlock.parsed [], ""⟩).1.block
      = FmBlock.parsed [("pdf-view-state", Fval.num 0)]
    ∧ handleFileOpen_page "pdf-view-state" [("pdf-view-state", Fval.num 0)] = none
    ∧ (0 : Int) ≤ 0 :=
  ⟨rfl, rfl, le_refl 0⟩

/-- C1 (corrected): the round-trip holds as claimed for the part_000 adapter
pair — for every page p ≥ 0 (indeed for every integer), writing p with
`savePdfStateDirect` and reading back with `loadPdfState` returns p — while
for the main.ts `savePDFState` / `handleFileOpen` pair it holds only for
p ≥ 1, because the read path's truthiness guard drops the stored bare 0. -/
theorem C1_roundtrip :
    (∀ (fmKey : String) (page : Int) (fm : Frontmatter), 0 ≤ page →
      loadPdfState_page fmKey (savePdfStateDirect_fm fmKey page fm).1 = some page)
    ∧ (∀ (fmKey : String) (page : Int) (fm : Frontmatter) (body : String), 1 ≤ page →
      (savePDFState fmKey page ⟨FmBlock.parsed fm, body⟩).1.block
        = FmBlock.parsed (fmSet fm fmKey (Fval.num page))
      ∧ handleFileOpen_page fmKey (fmSet fm fmKey (Fval.num page))
        = some (Fval.num page)) := by
  constructor
  · intro fmKey page fm _hp
    simp only [savePdfStateDirect_fm]
    split
    · simp [loadPdfState_page, fmLookup_fmSet, fmLookup]
    · next hC =>
      push_neg at hC
      obtain ⟨hpage, hpres, hobj⟩ := hC
      show loadPdfState_page fmKey fm = some page
      cases hfm : fmLookup fm fmKey with
      | none => rw [hfm] at hpres; simp at hpres
      | some v =>
        cases v with
        | num n => rw [hfm] at hobj; simp [jsTypeofObject] at hobj
        | str s => rw [hfm] at hobj; simp [jsTypeofObject] at hobj
        | bool b => rw [hfm] at hobj; simp [jsTypeofObject] at hobj
        | null => rw [hfm] at hpage; simp at hpage
        | obj fields =>
          rw [hfm] at hpage
          simp only [loadPdfState_page, hfm]
          simp at hpage
          cases hpg : fmLookup fields "page" with
          | none => rw [hpg] at hpage; simp at hpage
          | some pv =>
            cases pv with
            | num q => rw [hpg] at hpage; simp at hpage; simp [hpage]
            | str s => rw [hpg] at hpage; simp at hpage
            | bool b => rw [hpg] at hpage; simp at hpage
            | null => rw [hpg] at hpage; simp at hpage
            | obj gs => rw [hpg] at hpage; simp at hpage
  · intro fmKey page fm body hp
    refine ⟨rfl, ?_⟩
    have hlk : fmLookup (fmSet fm fmKey (Fval.num page)) fmKey
        = some (Fval.num page) := by
      simp [fmLookup_fmSet]
    have htr : jsTruthy (Fval.num page) = true := by
      simp only [jsTruthy, decide_eq_true_eq]
      omega
    unfold handleFileOpen_page
    rw [hlk]
    simp [htr]

/-- Witness for C1 at concrete inputs: page 7 round-trips through both
pairs. -/
theorem C1_roundtrip_witness :
    loadPdfState_page "pdf-view-state"
      (savePdfStateDirect_fm "pdf-view-state" 7 []).1 = some 7
    ∧ handleFileOpen_page "pdf-view-state"
      (fmSet [] "pdf-view-state" (Fval.num 7)) = some (Fval.num 7) :=
  ⟨C1_roundtrip.1 "pdf-view-state" 7 [] (by decide),
   (C1_roundtrip.2 "pdf-view-state" 7 [] "" (by decide)).2⟩

/-- C6 counterexample: the claim says the resolver returns null whenever the
result does not end in the literal extension `.md`, but the source's check is
case-insensitive (`filledPath.toLowerCase().endsWith('.md')`): a template
ending in `.MD` yields a returned path that does not end in `.md`. -/
theorem C6_counterexample :
    getAssociatedNotePath "\x7b\x7bpdf_basename\x7d\x7d.MD" "a.pdf" = some "a.MD"
    ∧ List.isSuffixOf ".md".data ("a.MD" : String).data = false :=
  ⟨by decide, by decide⟩

/-- C6 (corrected): part_000's resolver normalizes as claimed — every
returned path contains no repeated separator and does not start with `/` —
and returns null whenever the normalized result is empty or does not end in
`.md` CASE-INSENSITIVELY (so `.MD` results are accepted, which is the one
correction to the claim); equivalently, every returned path ends in `.md` up
to lowercasing and is nonempty. -/
theorem C6_normalization (t d s : String)
    (h : getAssociatedNotePath t d = some s) :
    hasDoubleSlash s.data = false ∧ s.data.head? ≠ some '/'
    ∧ List.isSuffixOf ".md".data (toLowerL s.data) = true ∧ s ≠ "" := by
  simp only [getAssociatedNotePath] at h
  split at h
  · exact Option.noConfusion h
  · split at h
    · exact Option.noConfusion h
    · next stripped heq =>
      obtain rfl := Option.some.inj h
      obtain ⟨h1, h2, h3, h4⟩ := normalizeCandidate_spec _ _ heq
      refine ⟨h1, h2, h3, ?_⟩
      intro hs
      exact h4 (congrArg String.data hs)

/-- Witness for C6: applying the theorem at template `(pdf_basename).MD`
— braces as in the placeholders — over `a.pdf`. -/
theorem C6_normalization_witness :
    hasDoubleSlash ("@a.md" : String).data = false
    ∧ ("@a.md" : String).data.head? ≠ some '/'
    ∧ List.isSuffixOf ".md".data (toLowerL ("@a.md" : String).data) = true
    ∧ ("@a.md" : String) ≠ "" :=
  C6_normalization "@\x7b\x7bpdf_basename\x7d\x7d.md" "a.pdf" "@a.md" (by decide)

/-- C7 counterexample: the claim says EVERY save for a path P is suppressed
while a load for P is in progress, but part_000's `triggerManualSave` never
consults `currentlyLoadingState`: with `doc.pdf` marked as loading, the
manual save command still reaches `savePdfStateDirect`. -/
theorem C7_counterexample :
    "doc.pdf" ∈ (PluginState.mk true ["doc.pdf"] none 0).currentlyLoadingState
    ∧ triggerManualSave_writes ⟨true, ["doc.pdf"], none, 0⟩ "doc.pdf" (some 3)
      = true :=
  ⟨by decide, by decide⟩

/-- C7 (corrected): the loading marker suppresses every save that goes
through `saveActivePdfState` — the periodic tick, the leaf-change forced
save, and the quit handler all call it — including forced ones; the manual
save command (`triggerManualSave`) bypasses the marker (see the
counterexample). -/
theorem C7_loading_suppresses_autosave (st : PluginState) (now : Nat)
    (p : String) (c : Option Int) (f : Bool)
    (h : p ∈ st.currentlyLoadingState) :
    saveActivePdfState_writes st now p c f = false := by
  obtain ⟨e, L, a, t⟩ := st
  cases e <;> simp [saveActivePdfState_writes, h]

/-- Witness for C7: a forced save for a path marked as loading performs no
write. -/
theorem C7_loading_suppresses_autosave_witness :
    saveActivePdfState_writes ⟨true, ["doc.pdf"], none, 0⟩ 99999 "doc.pdf"
      (some 5) true = false :=
  C7_loading_suppresses_autosave _ _ _ _ _ (by decide)

/-- C8 (confirmed): the closing/deactivating transitions force a save that
bypasses the throttle.  (1) part_000's `active-leaf-change` handler issues a
save with the force flag set exactly when the tracked leaf loses focus;
(2) a forced `saveActivePdfState` writes independently of
`lastSavedStateTime` — its outcome is `enabled ∧ not loading ∧ valid page`,
with no time condition; (3) main.ts's layout-change sweep saves exactly the
tracked PDFs that are no longer open; and (4) main.ts's `savePDFState`
(also called for each open PDF by `onunload`) has no throttle at all: every
reached write path calls `vault.modify`. -/
theorem C8_forced_save_on_close :
    (∀ (info : PdfInfo) (newLeaf : Option Nat),
      activeLeafChange_forcedSave (some info) newLeaf
        = if newLeaf = some info.leaf then none else some (info.pdfPath, true))
    ∧ (∀ (e : Bool) (L : List String) (a : Option PdfInfo) (t now : Nat)
        (p : String) (page : Int),
      saveActivePdfState_writes ⟨e, L, a, t⟩ now p (some page) true
        = (e && decide (p ∉ L) && decide (0 ≤ page)))
    ∧ (∀ (openPDFs currentPDFs : List String) (p : String),
      p ∈ checkForClosedPDFs_saves openPDFs currentPDFs
        ↔ p ∈ openPDFs ∧ p ∉ currentPDFs)
    ∧ (∀ (fmKey : String) (page : Int) (c : NoteContent),
      (savePDFState fmKey page c).2 = true) := by
  refine ⟨?_, ?_, ?_, ?_⟩
  · intro info newLeaf
    by_cases h : newLeaf = some info.leaf <;>
      simp [activeLeafChange_forcedSave, h]
  · intro e L a t now p page
    cases e
    · simp [saveActivePdfState_writes]
    · by_cases hL : p ∈ L
      · simp [saveActivePdfState_writes, hL]
      · by_cases hp : (0:Int) ≤ page
        · simp [saveActivePdfState_writes, hL, hp]
        · simp [saveActivePdfState_writes, hL, hp]
  · intro openPDFs currentPDFs p
    simp [checkForClosedPDFs_saves, List.mem_filter]
  · intro fmKey page c
    obtain ⟨block, body⟩ := c
    cases block <;> rfl

/-- C9 counterexample: on a non-forced save with a changed page, a write
already happens when only half the periodic interval (3500 ms) has elapsed
since the last write — strictly less than the full `SAVE_INTERVAL_MS` the
claim requires. -/
theorem C9_counterexample :
    saveActivePdfState_writes ⟨true, [], some ⟨0, "doc.pdf", some 1⟩, 0⟩ 3500
      "doc.pdf" (some 2) false = true
    ∧ 3500 < SAVE_INTERVAL_MS :=
  ⟨by decide, by decide⟩

/-- C9 (corrected): the non-forced write condition is characterized exactly:
saving enabled, path not loading, valid page, page differs from the last
known saved page, and at least HALF the periodic save interval
(`SAVE_INTERVAL_MS / 2` = 3500 ms) — not one full interval — elapsed since
the last actual write; a forced save is exempt from the time condition. -/
theorem C9_throttle_half_interval (e : Bool) (L : List String)
    (a : Option PdfInfo) (t now : Nat) (p : String) (page : Int) :
    saveActivePdfState_writes ⟨e, L, a, t⟩ now p (some page) false
      = (e && decide (p ∉ L) && decide (0 ≤ page)
         && decide (some page ≠ lastKnownSavedPage ⟨e, L, a, t⟩ p)
         && decide (SAVE_INTERVAL_MS / 2 ≤ now - t)) := by
  cases e
  · simp [saveActivePdfState_writes]
  · by_cases hL : p ∈ L
    · simp [saveActivePdfState_writes, hL]
    · by_cases hp : (0:Int) ≤ page
      · by_cases hk : some page = lastKnownSavedPage ⟨true, L, a, t⟩ p
        · simp [saveActivePdfState_writes, hL, hp, hk]
        · by_cases ht : now - t < SAVE_INTERVAL_MS / 2
          · simp [saveActivePdfState_writes, hL, hp, hk, ht, Nat.not_le.mpr ht]
          · simp [saveActivePdfState_writes, hL, hp, hk, ht, Nat.le_of_not_lt ht]
      · simp [saveActivePdfState_writes, hL, hp]
